import Mathlib

/-!
Verification of the event-driven observation and rendering pipeline of the
debug-playwright repository (src/index.ts), via a shallow embedding.

JavaScript strings are modeled as Lean `String`s (and, for the substring
algorithms, as `List Char`); machine effects (console output, temp files,
subprocess invocations, screenshot captures) are modeled as explicit output
records returned by the embedded functions; fallible asynchronous operations
(response body/text fetches, `which` probes, screenshot captures) are modeled
as `Except`/`Option` inputs so that both the success and failure paths of the
source are represented.
-/

namespace DebugPW

/-- JS `String.prototype.padEnd(n, ' ')`: append spaces up to length `n`
(for the ASCII strings used here, JS length = character count). -/
def jsPadEnd (s : String) (n : Nat) : String :=
  s ++ String.mk (List.replicate (n - s.length) ' ')

/-- Substring containment on character lists (JS `String.prototype.includes`). -/
def containsSub (pat : List Char) : List Char → Bool
  | [] => pat.isPrefixOf ([] : List Char)
  | c :: rest => pat.isPrefixOf (c :: rest) || containsSub pat rest

/-- JS `s.includes(pat)`. -/
def jsIncludes (s pat : String) : Bool :=
  containsSub pat.toList s.toList

/-- JS `s.startsWith(pre)`. -/
def jsStartsWith (s pre : String) : Bool :=
  pre.toList.isPrefixOf s.toList

/-- JS `String.prototype.split(c)` for a single-character separator:
`"".split(c) = [""]`, and every occurrence of `c` separates fields. -/
def jsSplitChar (c : Char) : List Char → List (List Char)
  | [] => [[]]
  | d :: rest =>
    let r := jsSplitChar c rest
    if d = c then [] :: r
    else
      match r with
      | [] => [[d]]
      | h :: t => (d :: h) :: t

/-- Whitespace test used by the JS `trim` model. -/
def isWs (c : Char) : Bool :=
  c = ' ' || c = '\t' || c = '\n' || c = '\r'

/-- JS `String.prototype.trim` on a character list: strip leading and
trailing whitespace. -/
def trimList (s : List Char) : List Char :=
  List.dropWhile isWs ((List.dropWhile isWs s.reverse).reverse)

/-- JS `String.prototype.toLowerCase` restricted to ASCII (the HTTP method
names it is applied to are ASCII). -/
def jsToLowerChar (c : Char) : Char :=
  if 'A' ≤ c ∧ c ≤ 'Z' then Char.ofNat (c.toNat + 32) else c

/-- ASCII lower-casing of a string, modeling `data.method().toLowerCase()`. -/
def jsToLower (s : String) : String :=
  String.mk (s.toList.map jsToLowerChar)

/-- JS `Array.prototype.join(' ')`: `null` elements have already been turned
into the empty string by the caller. -/
def jsJoinSpace : List String → String
  | [] => ""
  | [s] => s
  | s :: rest => s ++ " " ++ jsJoinSpace rest

/-- JS `String.prototype.replace(pat, rep)` with a plain-string pattern:
replace only the first occurrence of `pat` (identity when `pat` does not
occur), on character lists.  Source: `template.replace('{video}', video)`
in `movieToGIF`. -/
def replaceFirst (pat rep : List Char) : List Char → List Char
  | [] => if pat = [] then rep else []
  | c :: rest =>
    if pat.isPrefixOf (c :: rest) then rep ++ (c :: rest).drop pat.length
    else c :: replaceFirst pat rep rest

/-- `responseStatus` from src/index.ts:
`code < 300 ? '💖' : code < 400 ? '🚀' : '💩'`. -/
def responseStatus (code : Nat) : String :=
  if code < 300 then "💖" else if code < 400 then "🚀" else "💩"

end DebugPW

namespace DebugPW

/-- The mutable per-observer state of `class DebugPlaywright` together with
its configuration flags (src/index.ts, constructor). -/
structure ObsState where
  listen : Bool
  formattedContent : Bool
  screenshots : Bool
  logAssetRequests : Bool
  logPOSTParams : Bool
  verbose : Bool
  methodPadLength : Nat
  requestCount : Nat
  logger : List (List String)

/-- Observer state right after construction (`methodPadLength = 4`,
`requestCount = 0`, empty logger), given the configuration flags. -/
def mkObs (listen formattedContent screenshots logAssetRequests
    logPOSTParams verbose : Bool) : ObsState :=
  { listen := listen
    formattedContent := formattedContent
    screenshots := screenshots
    logAssetRequests := logAssetRequests
    logPOSTParams := logPOSTParams
    verbose := verbose
    methodPadLength := 4
    requestCount := 0
    logger := [] }

/-- A `response` event as seen by the listener: the event data together with
the outcomes of the asynchronous body/text fetches (`response.body()` and
`response.text()` may reject, e.g. after navigating away). -/
structure ResponseEvent where
  resourceType : String
  status : Nat
  method : String
  urlPathname : String
  urlSearch : String
  urlFull : String
  ctype : Option String
  bodyFetch : Except String (List Nat)
  textFetch : Except String String

/-- What `dumpformattedContent` dispatches to the artifact renderer. -/
inductive RenderAction where
  | renderImage (ext : String) (bytes : List Nat)
  | renderText (text : String)
deriving DecidableEq

/-- `dumpformattedContent` (src/index.ts lines 284-305): skip error/redirect
statuses; for an `image/*` content type compute the temp-file extension as
`type.split('/')[1] ?? 'png'`, fetch the body and render it as an image; for
everything else fetch the text and pipe it through `lynx`.  The fetches are
not guarded by any try/catch in the source, so a fetch failure propagates
(`Except.error`). -/
def dumpformattedContent (ev : ResponseEvent) : Except String (Option RenderAction) :=
  if responseStatus ev.status = "💩" ∨ responseStatus ev.status = "🚀" then
    Except.ok none
  else
    match ev.ctype with
    | some t =>
      if jsStartsWith t "image" then
        match ev.bodyFetch with
        | Except.ok b =>
          Except.ok (some (RenderAction.renderImage
            (String.mk (((jsSplitChar '/' t.toList).get? 1).getD "png".toList)) b))
        | Except.error e => Except.error e
      else
        match ev.textFetch with
        | Except.ok s => Except.ok (some (RenderAction.renderText s))
        | Except.error e => Except.error e
    | none =>
      match ev.textFetch with
      | Except.ok s => Except.ok (some (RenderAction.renderText s))
      | Except.error e => Except.error e

/-- Observable outcome of one `response` listener invocation: the printed
status line (if any), the content-render dispatch (if any), and the error, if
any, that escaped the handler uncaught. -/
structure RespOutput where
  statusLine : Option String
  render : Option RenderAction
  escaped : Option String
deriving DecidableEq

/-- No output. -/
def noRespOutput : RespOutput := ⟨none, none, none⟩

/-- The `(status, paddedMethod, path+query)` triple pushed onto `this.logger`
by the response listener. -/
def respLogEntry (st : ObsState) (ev : ResponseEvent) : List String :=
  [toString ev.status, jsPadEnd ev.method st.methodPadLength,
    ev.urlPathname ++ ev.urlSearch]

/-- The status line printed for a non-redirect document response
(`[responseStatus, paddedStatus, paddedMethod, url, contentType].join(' ')`;
a `null` content type joins as the empty string). -/
def respStatusLine (st : ObsState) (ev : ResponseEvent) : String :=
  jsJoinSpace [responseStatus ev.status, jsPadEnd (toString ev.status) 15,
    jsPadEnd ev.method st.methodPadLength, ev.urlFull, ev.ctype.getD ""]

/-- The `response` listener (src/index.ts lines 249-281): ignore when not
listening or for non-document resources; push the log triple; return silently
for redirect statuses; otherwise print the status line and, when
`formattedContent` is set, await `dumpformattedContent` — whose failure is
not caught and therefore escapes the handler.  `pushResp` is the
`this.logger.push(...)` step. -/
def pushResp (st : ObsState) (ev : ResponseEvent) : ObsState :=
  { st with logger := st.logger ++ [respLogEntry st ev] }

/-- The `response` listener itself (see `pushResp` for the logging step). -/
def respondHandler (st : ObsState) (ev : ResponseEvent) : ObsState × RespOutput :=
  if st.listen = false then (st, noRespOutput)
  else if ev.resourceType ≠ "document" then (st, noRespOutput)
  else if responseStatus ev.status = "🚀" then (pushResp st ev, noRespOutput)
  else if st.formattedContent = true then
    match dumpformattedContent ev with
    | Except.error e => (pushResp st ev, ⟨some (respStatusLine st ev), none, some e⟩)
    | Except.ok r => (pushResp st ev, ⟨some (respStatusLine st ev), r, none⟩)
  else (pushResp st ev, ⟨some (respStatusLine st ev), none, none⟩)

/-- Claim C5: the response classifier is a total function of the status code
alone: `s < 300` exactly when it yields the success marker, `300 ≤ s < 400`
exactly when it yields the redirect marker, `s ≥ 400` exactly when it yields
the error marker; the three outcomes are exhaustive and pairwise distinct. -/
theorem responseStatus_total_classification :
    ∀ code : Nat,
      (responseStatus code = "💖" ↔ code < 300) ∧
      (responseStatus code = "🚀" ↔ 300 ≤ code ∧ code < 400) ∧
      (responseStatus code = "💩" ↔ 400 ≤ code) ∧
      (responseStatus code = "💖" ∨ responseStatus code = "🚀" ∨
        responseStatus code = "💩") ∧
      (("💖" : String) ≠ "🚀" ∧ ("💖" : String) ≠ "💩" ∧
        ("🚀" : String) ≠ "💩") := by
  intro code
  unfold responseStatus
  by_cases h1 : code < 300
  · rw [if_pos h1]
    refine ⟨⟨fun _ => h1, fun _ => rfl⟩, ?_, ?_, Or.inl rfl,
      by decide, by decide, by decide⟩
    · exact ⟨fun h => absurd h (by decide), fun h => by exfalso; omega⟩
    · exact ⟨fun h => absurd h (by decide), fun h => by exfalso; omega⟩
  · rw [if_neg h1]
    by_cases h2 : code < 400
    · rw [if_pos h2]
      refine ⟨?_, ?_, ?_, Or.inr (Or.inl rfl), by decide, by decide, by decide⟩
      · exact ⟨fun h => absurd h (by decide), fun h => by exfalso; omega⟩
      · exact ⟨fun _ => by omega, fun _ => rfl⟩
      · exact ⟨fun h => absurd h (by decide), fun h => by exfalso; omega⟩
    · rw [if_neg h2]
      refine ⟨?_, ?_, ?_, Or.inr (Or.inr rfl), by decide, by decide, by decide⟩
      · exact ⟨fun h => absurd h (by decide), fun h => by exfalso; omega⟩
      · exact ⟨fun h => absurd h (by decide), fun h => by exfalso; omega⟩
      · exact ⟨fun _ => by omega, fun _ => rfl⟩

/-- An observer with listening on and content dumping off, as constructed by
`new DebugPlaywright({ page })` except for the flags under test. -/
def stRedirect : ObsState := mkObs true false true false true false

/-- A 302 document response event. -/
def evRedirect : ResponseEvent :=
  { resourceType := "document"
    status := 302
    method := "GET"
    urlPathname := "/login"
    urlSearch := "?next=1"
    urlFull := "http://example.test/login?next=1"
    ctype := some "text/html"
    bodyFetch := Except.ok []
    textFetch := Except.ok "" }

/-- Claim C2, counterexample: the claim asserts that for a redirect document
response no (status, method, path+query) triple is appended to the session
log; but on a concrete 302 response the handler does append the triple (the
`logger.push` happens before the redirect check in the source). -/
theorem respondHandler_redirect_counterexample :
    (respondHandler stRedirect evRedirect).1.logger
        = [["302", "GET ", "/login?next=1"]] ∧
    stRedirect.logger = [] :=
  ⟨rfl, rfl⟩

/-- Claim C2, amended: for every document response with status in [300,400)
the status line and the content rendering are suppressed and no error
escapes, but the (status, method, path+query) triple IS appended to the
session log. -/
theorem respondHandler_redirect_suppresses_output_but_logs :
    ∀ (st : ObsState) (ev : ResponseEvent),
      st.listen = true → ev.resourceType = "document" →
      300 ≤ ev.status → ev.status < 400 →
      (respondHandler st ev).1.logger = st.logger ++ [respLogEntry st ev] ∧
      (respondHandler st ev).2 = noRespOutput := by
  intro st ev h1 h2 h3 h4
  have hrs : responseStatus ev.status = "🚀" := by
    unfold responseStatus
    rw [if_neg (by omega), if_pos (by omega)]
  unfold respondHandler
  rw [h1, h2, hrs]
  rw [if_neg (by decide : ¬(true = false))]
  rw [if_neg (by simp : ¬(("document" : String) ≠ "document"))]
  rw [if_pos rfl]
  exact ⟨rfl, rfl⟩

/-- Witness for the amended C2 theorem at the concrete 302 event. -/
theorem respondHandler_redirect_suppresses_output_but_logs_witness :
    (respondHandler stRedirect evRedirect).1.logger
        = stRedirect.logger ++ [respLogEntry stRedirect evRedirect] ∧
    (respondHandler stRedirect evRedirect).2 = noRespOutput :=
  respondHandler_redirect_suppresses_output_but_logs stRedirect evRedirect
    rfl rfl (by decide) (by decide)

/-- An observer with listening and content dumping both enabled. -/
def stDump : ObsState := mkObs true true true false true false

/-- A 200 text/html document response whose text fetch fails (the page
navigated away before `response.text()` resolved). -/
def evTextFail : ResponseEvent :=
  { resourceType := "document"
    status := 200
    method := "GET"
    urlPathname := "/page"
    urlSearch := ""
    urlFull := "http://example.test/page"
    ctype := some "text/html"
    bodyFetch := Except.ok []
    textFetch := Except.error "Response body is unavailable" }

/-- Claim C1, counterexample: the claim asserts that a body/text fetch
failure under `dumpContent` is reported as a diagnostic line and that no
exception escapes the response handler; but on a concrete failing text fetch
the error escapes the handler uncaught (there is no try/catch around
`response.body()` / `response.text()` in `dumpformattedContent`). -/
theorem respondHandler_escape_counterexample :
    (respondHandler stDump evTextFail).2.escaped
        = some "Response body is unavailable" ∧
    ¬ (respondHandler stDump evTextFail).2.escaped = none := by
  have h1 : (respondHandler stDump evTextFail).2.escaped
      = some "Response body is unavailable" := rfl
  exact ⟨h1, fun h => by rw [h1] at h; exact Option.noConfusion h⟩

/-- Claim C1, amended: when `dumpContent` is enabled and fetching the
response body or text fails on a document response, rendering for the event
is skipped but the failure is NOT locally caught: the exception escapes the
response handler (it surfaces as an unhandled rejection of the async
listener), and the failing fetch is indeed a body or text fetch. -/
theorem respondHandler_fetch_error_escapes :
    ∀ (st : ObsState) (ev : ResponseEvent) (e : String),
      st.listen = true → st.formattedContent = true →
      ev.resourceType = "document" →
      dumpformattedContent ev = Except.error e →
      (respondHandler st ev).2.escaped = some e ∧
      (respondHandler st ev).2.render = none ∧
      (ev.bodyFetch = Except.error e ∨ ev.textFetch = Except.error e) := by
  intro st ev e h1 h2 h3 hdump
  have hnr : ¬(responseStatus ev.status = "💩" ∨ responseStatus ev.status = "🚀") := by
    intro hcon
    unfold dumpformattedContent at hdump
    rw [if_pos hcon] at hdump
    exact Except.noConfusion hdump
  have hfetch : ev.bodyFetch = Except.error e ∨ ev.textFetch = Except.error e := by
    unfold dumpformattedContent at hdump
    rw [if_neg hnr] at hdump
    cases hc : ev.ctype with
    | none =>
      simp only [hc] at hdump
      cases ht : ev.textFetch with
      | ok s =>
        simp only [ht] at hdump
        exact Except.noConfusion hdump
      | error e2 =>
        simp only [ht] at hdump
        cases hdump
        exact Or.inr rfl
    | some t =>
      simp only [hc] at hdump
      by_cases hi : jsStartsWith t "image" = true
      · simp only [hi, if_true] at hdump
        cases hb : ev.bodyFetch with
        | ok b =>
          simp only [hb] at hdump
          exact Except.noConfusion hdump
        | error e2 =>
          simp only [hb] at hdump
          cases hdump
          exact Or.inl rfl
      · simp only [hi, if_false] at hdump
        cases ht : ev.textFetch with
        | ok s =>
          simp only [ht] at hdump
          exact Except.noConfusion hdump
        | error e2 =>
          simp only [ht] at hdump
          cases hdump
          exact Or.inr rfl
  have hrs : ¬(responseStatus ev.status = "🚀") := fun h => hnr (Or.inr h)
  unfold respondHandler
  rw [h1, h2, h3]
  rw [if_neg (by decide : ¬(true = false))]
  rw [if_neg (by simp : ¬(("document" : String) ≠ "document"))]
  rw [if_neg hrs]
  rw [if_pos rfl]
  rw [hdump]
  exact ⟨rfl, rfl, hfetch⟩

/-- Witness for the amended C1 theorem at the concrete failing fetch. -/
theorem respondHandler_fetch_error_escapes_witness :
    (respondHandler stDump evTextFail).2.escaped
        = some "Response body is unavailable" ∧
    (respondHandler stDump evTextFail).2.render = none ∧
    (evTextFail.bodyFetch = Except.error "Response body is unavailable" ∨
      evTextFail.textFetch = Except.error "Response body is unavailable") :=
  respondHandler_fetch_error_escapes stDump evTextFail
    "Response body is unavailable" rfl rfl rfl rfl

/-- A 200 document response whose content type carries a parameter after
`image/jpeg`. -/
def evJpegParams : ResponseEvent :=
  { resourceType := "document"
    status := 200
    method := "GET"
    urlPathname := "/img"
    urlSearch := ""
    urlFull := "http://example.test/img"
    ctype := some "image/jpeg; charset=utf-8"
    bodyFetch := Except.ok [255, 216, 255]
    textFetch := Except.ok "" }

/-- Claim C7, counterexample: the claim asserts that every content type
beginning with "image/jpeg" leads to a temp file with extension "jpeg"; but
for the content type "image/jpeg; charset=utf-8" (which does begin with
"image/jpeg") the code computes the extension `type.split('/')[1]`, i.e.
"jpeg; charset=utf-8", not "jpeg". -/
theorem respondHandler_jpeg_params_counterexample :
    jsStartsWith "image/jpeg; charset=utf-8" "image/jpeg" = true ∧
    (respondHandler stDump evJpegParams).2.render
        = some (RenderAction.renderImage "jpeg; charset=utf-8" [255, 216, 255]) ∧
    "jpeg; charset=utf-8" ≠ "jpeg" :=
  ⟨by decide, rfl, by decide⟩

/-- Claim C7, amended: for every successful (status < 300) document response
with `dumpContent` enabled whose content type is exactly "image/jpeg", the
renderer is invoked on a temp file with extension "jpeg" whose contents are
the response body bytes byte-for-byte; in general the extension is the whole
remainder of the content type after the first "/". -/
theorem respondHandler_jpeg_exact_renders :
    ∀ (st : ObsState) (ev : ResponseEvent) (bytes : List Nat),
      st.listen = true → st.formattedContent = true →
      ev.resourceType = "document" → ev.status < 300 →
      ev.ctype = some "image/jpeg" → ev.bodyFetch = Except.ok bytes →
      (respondHandler st ev).2.render
          = some (RenderAction.renderImage "jpeg" bytes) := by
  intro st ev bytes h1 h2 h3 h4 h5 h6
  have hok : responseStatus ev.status = "💖" := by
    unfold responseStatus
    rw [if_pos h4]
  have hnotred : ¬(responseStatus ev.status = "🚀") := by
    rw [hok]; decide
  have hdump : dumpformattedContent ev
      = Except.ok (some (RenderAction.renderImage "jpeg" bytes)) := by
    unfold dumpformattedContent
    rw [if_neg (by rw [hok]; decide :
      ¬(responseStatus ev.status = "💩" ∨ responseStatus ev.status = "🚀"))]
    simp only [h5]
    rw [if_pos (by decide : jsStartsWith "image/jpeg" "image" = true)]
    simp only [h6]
    rfl
  unfold respondHandler
  rw [h1, h2, h3]
  rw [if_neg (by decide : ¬(true = false))]
  rw [if_neg (by simp : ¬(("document" : String) ≠ "document"))]
  rw [if_neg hnotred]
  rw [if_pos rfl]
  rw [hdump]

/-- A 200 document response with content type exactly "image/jpeg". -/
def evJpegExact : ResponseEvent :=
  { resourceType := "document"
    status := 200
    method := "GET"
    urlPathname := "/img"
    urlSearch := ""
    urlFull := "http://example.test/img"
    ctype := some "image/jpeg"
    bodyFetch := Except.ok [255, 216]
    textFetch := Except.ok "" }

/-- Witness for the amended C7 theorem at the concrete jpeg response. -/
theorem respondHandler_jpeg_exact_renders_witness :
    (respondHandler stDump evJpegExact).2.render
        = some (RenderAction.renderImage "jpeg" [255, 216]) :=
  respondHandler_jpeg_exact_renders stDump evJpegExact [255, 216]
    rfl rfl rfl (by decide) rfl rfl

/-- A `request` / `requestfinished` event's data. -/
structure ReqData where
  method : String
  resourceType : String
  url : String
  postData : String

/-- Observable outcome of one `handleRequestEvent` invocation. -/
structure ReqOutput where
  assetLine : Option String
  reportLine : Option String
  postParamsDumped : Bool
  screenshotAttempt : Bool

/-- No output. -/
def noReqOutput : ReqOutput := ⟨none, none, false, false⟩

/-- The report branch of `handleRequestEvent`: the `✨`-report line, the
POST-parameter dump condition (`requestfinished` and lower-cased method
"post" and `logPOSTParams`), and the screenshot attempt (`this.screenshots`). -/
def reportOutput (st : ObsState) (data : ReqData) (eventName : String) : ReqOutput :=
  { assetLine := none
    reportLine := some ("✨ " ++ jsPadEnd eventName 15 ++ " "
      ++ jsPadEnd data.method 4 ++ " " ++ data.url)
    postParamsDumped := (eventName == "requestfinished")
      && (jsToLower data.method == "post") && st.logPOSTParams
    screenshotAttempt := st.screenshots }

/-- `handleRequestEvent` (src/index.ts lines 307-343): skip when not
listening; requests that are neither method "get" (note: the source compares
the upper-case Playwright method against the lower-case literal) nor
document-type are asset requests, logged only under `logAssetRequests`;
a `request` event increments the counter and produces nothing when the
incremented counter equals 1 (the page's very first request); otherwise the
report line is printed, POST parameters possibly dumped, and a screenshot
attempted iff `this.screenshots`. -/
def handleRequestEvent (st : ObsState) (data : ReqData) (eventName : String) :
    ObsState × ReqOutput :=
  if st.listen = false then (st, noReqOutput)
  else if data.method ≠ "get" ∧ data.resourceType ≠ "document" then
    (st, { assetLine := if st.logAssetRequests = true then
             some ("✨ " ++ eventName ++ " " ++ data.method ++ " " ++ data.url)
           else none
           reportLine := none
           postParamsDumped := false
           screenshotAttempt := false })
  else if eventName = "request" then
    if st.requestCount + 1 = 1 ∨ st.listen = false then
      ({ st with requestCount := st.requestCount + 1 }, noReqOutput)
    else
      ({ st with requestCount := st.requestCount + 1 }, reportOutput st data eventName)
  else (st, reportOutput st data eventName)

/-- Claim C3: with listening enabled, the first outbound `request` event
(counter still 0) triggers no report line and no screenshot; every
`request` event for a document-type GET arriving when at least one request
has already been counted triggers a report line, and a screenshot attempt
exactly when the `screenshots` flag is enabled. -/
theorem handleRequestEvent_first_skipped_then_reported :
    ∀ st : ObsState, st.listen = true →
      (∀ data : ReqData, st.requestCount = 0 →
        (handleRequestEvent st data "request").2.reportLine = none ∧
        (handleRequestEvent st data "request").2.screenshotAttempt = false) ∧
      (∀ data : ReqData, 1 ≤ st.requestCount →
        data.resourceType = "document" → data.method = "GET" →
        (handleRequestEvent st data "request").2.reportLine ≠ none ∧
        ((handleRequestEvent st data "request").2.screenshotAttempt = true ↔
          st.screenshots = true)) := by
  intro st hl
  constructor
  · intro data h0
    unfold handleRequestEvent
    rw [hl]
    rw [if_neg (by decide : ¬(true = false))]
    by_cases hA : data.method ≠ "get" ∧ data.resourceType ≠ "document"
    · rw [if_pos hA]
      exact ⟨rfl, rfl⟩
    · rw [if_neg hA]
      rw [if_pos rfl]
      rw [if_pos (Or.inl (by omega))]
      exact ⟨rfl, rfl⟩
  · intro data h1 hd hm
    unfold handleRequestEvent
    rw [hl]
    rw [if_neg (by decide : ¬(true = false))]
    rw [if_neg (by rw [hd, hm]; decide :
      ¬(data.method ≠ "get" ∧ data.resourceType ≠ "document"))]
    rw [if_pos rfl]
    have hg : ¬(st.requestCount + 1 = 1 ∨ true = false) := by
      intro h
      rcases h with h | h
      · omega
      · exact Bool.noConfusion h
    rw [if_neg hg]
    exact ⟨fun h => Option.noConfusion h, Iff.rfl⟩

/-- Freshly constructed listening observer (request counter 0). -/
def stFirst : ObsState := mkObs true false true false true false

/-- The same observer after one counted request. -/
def stSecond : ObsState := { stFirst with requestCount := 1 }

/-- A document-type GET navigation request. -/
def reqDoc : ReqData :=
  { method := "GET"
    resourceType := "document"
    url := "http://example.test/"
    postData := "" }

/-- Witness for the C3 theorem at concrete first and second requests. -/
theorem handleRequestEvent_first_skipped_then_reported_witness :
    ((handleRequestEvent stFirst reqDoc "request").2.reportLine = none ∧
     (handleRequestEvent stFirst reqDoc "request").2.screenshotAttempt = false) ∧
    ((handleRequestEvent stSecond reqDoc "request").2.reportLine ≠ none ∧
     ((handleRequestEvent stSecond reqDoc "request").2.screenshotAttempt = true ↔
       stSecond.screenshots = true)) :=
  ⟨(handleRequestEvent_first_skipped_then_reported stFirst rfl).1 reqDoc rfl,
   (handleRequestEvent_first_skipped_then_reported stSecond rfl).2 reqDoc
     (by decide) rfl rfl⟩

/-- The operations that touch (or could touch) the observer state: the three
event listeners (`response`, `request`/`requestfinished`, `close`) and the
public methods `printLogs` and `printScreenshot`/`printImage`.  In the
source, the `close` listener prints the decoded data-URL payload and calls
`printLogs`, which only reads `this.logger`; `printScreenshot` and
`printImage` never touch `this.logger` or `this.requestCount`. -/
inductive ObsOp where
  | response (ev : ResponseEvent)
  | request (data : ReqData) (eventName : String)
  | pageClose (url : String)
  | logsDump
  | screenshot

/-- State transition of the observer under one operation. -/
def obsStep (st : ObsState) (op : ObsOp) : ObsState :=
  match op with
  | ObsOp.response ev => (respondHandler st ev).1
  | ObsOp.request d n => (handleRequestEvent st d n).1
  | ObsOp.pageClose _ => st
  | ObsOp.logsDump => st
  | ObsOp.screenshot => st

/-- The `response` listener either leaves the state alone or pushes exactly
the log triple. -/
theorem respondHandler_fst (st : ObsState) (ev : ResponseEvent) :
    (respondHandler st ev).1 = st ∨ (respondHandler st ev).1 = pushResp st ev := by
  unfold respondHandler
  by_cases h1 : st.listen = false
  · rw [if_pos h1]; exact Or.inl rfl
  · rw [if_neg h1]
    by_cases h2 : ev.resourceType ≠ "document"
    · rw [if_pos h2]; exact Or.inl rfl
    · rw [if_neg h2]
      by_cases h3 : responseStatus ev.status = "🚀"
      · rw [if_pos h3]; exact Or.inr rfl
      · rw [if_neg h3]
        by_cases h4 : st.formattedContent = true
        · rw [if_pos h4]
          cases dumpformattedContent ev with
          | error e => exact Or.inr rfl
          | ok r => exact Or.inr rfl
        · rw [if_neg h4]; exact Or.inr rfl

/-- The request listener either leaves the state alone or increments the
request counter by one. -/
theorem handleRequestEvent_fst (st : ObsState) (d : ReqData) (n : String) :
    (handleRequestEvent st d n).1 = st ∨
    (handleRequestEvent st d n).1 = { st with requestCount := st.requestCount + 1 } := by
  unfold handleRequestEvent
  by_cases h1 : st.listen = false
  · rw [if_pos h1]; exact Or.inl rfl
  · rw [if_neg h1]
    by_cases h2 : d.method ≠ "get" ∧ d.resourceType ≠ "document"
    · rw [if_pos h2]; exact Or.inl rfl
    · rw [if_neg h2]
      by_cases h3 : n = "request"
      · rw [if_pos h3]
        by_cases h4 : st.requestCount + 1 = 1 ∨ st.listen = false
        · rw [if_pos h4]; exact Or.inr rfl
        · rw [if_neg h4]; exact Or.inr rfl
      · rw [if_neg h3]; exact Or.inl rfl

/-- Claim C9: every operation either leaves the session log unchanged or
appends exactly one entry at its end, and never decreases the request
counter. -/
theorem obsStep_logger_append_only_count_monotone :
    ∀ (st : ObsState) (op : ObsOp),
      (∃ t : List (List String),
        (obsStep st op).logger = st.logger ++ t ∧ t.length ≤ 1) ∧
      st.requestCount ≤ (obsStep st op).requestCount := by
  intro st op
  cases op with
  | response ev =>
    rcases respondHandler_fst st ev with h | h
    · exact ⟨⟨[], by simp [obsStep, h]⟩, by simp [obsStep, h]⟩
    · exact ⟨⟨[respLogEntry st ev], by simp [obsStep, h, pushResp]⟩,
        by simp [obsStep, h, pushResp]⟩
  | request d n =>
    rcases handleRequestEvent_fst st d n with h | h
    · exact ⟨⟨[], by simp [obsStep, h]⟩, by simp [obsStep, h]⟩
    · exact ⟨⟨[], by simp [obsStep, h]⟩, by simp [obsStep, h]⟩
  | pageClose url => exact ⟨⟨[], by simp [obsStep]⟩, by simp [obsStep]⟩
  | logsDump => exact ⟨⟨[], by simp [obsStep]⟩, by simp [obsStep]⟩
  | screenshot => exact ⟨⟨[], by simp [obsStep]⟩, by simp [obsStep]⟩

/-- The diagnostic printed by the early-return branch of `printScreenshot`. -/
def closedByCheckMsg : String := "Not taking screenshot. page is already closed."

/-- The substring the catch branch looks for in the error stack. -/
def closureMsg : String := "Target page, context or browser has been closed"

/-- The stack of the error that `page.waitForLoadState` raises on a page
that is already closed. -/
def closedErrStack : String :=
  "page.waitForLoadState: Target page, context or browser has been closed"

/-- Observable outcome of one `printScreenshot` call: printed lines, whether
`page.screenshot` was invoked, whether a screenshot file was written, and
whether the temp file was forwarded to `printImage`. -/
structure ScreenshotOutcome where
  lines : List String
  screenshotCalled : Bool
  fileWritten : Bool
  renderDispatched : Bool
deriving DecidableEq

/-- `printScreenshot` (src/index.ts lines 149-177).  The guard returns early
(with a diagnostic) only when the page is closed AND verbose is set.  When
the page is closed and verbose is not set, execution enters the try block,
`waitForLoadState` raises the closure error before `page.screenshot` is ever
invoked, and the catch swallows it silently because the stack contains the
closure message and verbose is off; any other capture error is reported with
a `🤯` line.  On success the temp file is forwarded to `printImage`.
`waitErr`/`shotErr` model capture failures on a page that is still open. -/
def printScreenshot (closed verbose fullPage : Bool)
    (waitErr shotErr : Option String) : ScreenshotOutcome :=
  if closed && verbose then
    { lines := [closedByCheckMsg], screenshotCalled := false,
      fileWritten := false, renderDispatched := false }
  else
    match (if closed then some closedErrStack else waitErr) with
    | some e =>
      if jsIncludes e closureMsg && !verbose then
        { lines := [], screenshotCalled := false,
          fileWritten := false, renderDispatched := false }
      else
        { lines := ["🤯 " ++ e], screenshotCalled := false,
          fileWritten := false, renderDispatched := false }
    | none =>
      match shotErr with
      | some e =>
        if jsIncludes e closureMsg && !verbose then
          { lines := [], screenshotCalled := true,
            fileWritten := false, renderDispatched := false }
        else
          { lines := ["🤯 " ++ e], screenshotCalled := true,
            fileWritten := false, renderDispatched := false }
      | none =>
        { lines := [], screenshotCalled := true,
          fileWritten := true, renderDispatched := true }

/-- Claim C4: calling `printScreenshot` on an already-closed page with
verbose off terminates without error, prints nothing, never invokes the
capture, writes no file and dispatches no render; with verbose on it prints
exactly the one closure diagnostic and likewise produces no screenshot. -/
theorem printScreenshot_closed_page :
    ∀ (fullPage : Bool) (waitErr shotErr : Option String),
      printScreenshot true false fullPage waitErr shotErr
        = { lines := [], screenshotCalled := false,
            fileWritten := false, renderDispatched := false } ∧
      printScreenshot true true fullPage waitErr shotErr
        = { lines := [closedByCheckMsg], screenshotCalled := false,
            fileWritten := false, renderDispatched := false } ∧
      (printScreenshot true true fullPage waitErr shotErr).lines.length = 1 := by
  intro fp wE sE
  exact ⟨rfl, rfl, rfl⟩

/-- Environment seen by `printImage`: whether the TMUX marker is set, the
outcome of `which chafa` / `which viu` (`none` = the probe subprocess threw),
and whether the final render command exits successfully. -/
structure ImgEnv where
  tmux : Bool
  chafaWhich : Option String
  viuWhich : Option String
  execOk : Bool

/-- The `if (path)` test after `execSync('which ...').toString().trim()`:
the probe found the tool when `which` succeeded with a nonempty trimmed
output. -/
def whichFound (w : Option String) : Bool :=
  match w with
  | some s => !(trimList s.toList).isEmpty
  | none => false

/-- One `console.error('Error finding ...')` line is printed exactly when
the `which` subprocess threw. -/
def probeErrLines (w : Option String) : Nat :=
  match w with
  | some _ => 0
  | none => 1

/-- Observable outcome of one `printImage` call. -/
structure PrintImageResult where
  finalCommand : String
  fallbackNotices : Nat
  probeErrorLines : Nat
  rendered : Bool
deriving DecidableEq

/-- `printImage` (src/index.ts lines 179-216): when the configured command
mentions `imgcat` and `TMUX` is set, probe `chafa` then `viu` in that order,
switch to the first found and print one `🤔` fallback notice; a probe whose
`which` throws adds an error line and the loop continues; if neither is
found the original command is kept.  Then the (possibly replaced) command is
executed on the file. -/
def printImage (command : String) (env : ImgEnv) (file : String) : PrintImageResult :=
  if jsIncludes command "imgcat" && env.tmux then
    if whichFound env.chafaWhich then
      { finalCommand := "chafa", fallbackNotices := 1,
        probeErrorLines := 0, rendered := env.execOk }
    else if whichFound env.viuWhich then
      { finalCommand := "viu", fallbackNotices := 1,
        probeErrorLines := probeErrLines env.chafaWhich, rendered := env.execOk }
    else
      { finalCommand := command, fallbackNotices := 0,
        probeErrorLines := probeErrLines env.chafaWhich + probeErrLines env.viuWhich,
        rendered := env.execOk }
  else
    { finalCommand := command, fallbackNotices := 0,
      probeErrorLines := 0, rendered := env.execOk }

/-- Claim C8: with an imgcat-referencing command under TMUX, the probe order
is chafa then viu; the first found wins with exactly one fallback notice;
when neither is found the original command is used with no notice. -/
theorem printImage_tmux_fallback :
    ∀ (command : String) (env : ImgEnv) (file : String),
      jsIncludes command "imgcat" = true → env.tmux = true →
      (whichFound env.chafaWhich = true →
        (printImage command env file).finalCommand = "chafa" ∧
        (printImage command env file).fallbackNotices = 1) ∧
      (whichFound env.chafaWhich = false → whichFound env.viuWhich = true →
        (printImage command env file).finalCommand = "viu" ∧
        (printImage command env file).fallbackNotices = 1) ∧
      (whichFound env.chafaWhich = false → whichFound env.viuWhich = false →
        (printImage command env file).finalCommand = command ∧
        (printImage command env file).fallbackNotices = 0) := by
  intro cmd env file hc ht
  unfold printImage
  rw [hc, ht]
  rw [if_pos (by decide : (true && true) = true)]
  refine ⟨?_, ?_, ?_⟩
  · intro h1
    rw [if_pos h1]
    exact ⟨rfl, rfl⟩
  · intro h1 h2
    rw [if_neg (by rw [h1]; decide), if_pos h2]
    exact ⟨rfl, rfl⟩
  · intro h1 h2
    rw [if_neg (by rw [h1]; decide), if_neg (by rw [h2]; decide)]
    exact ⟨rfl, rfl⟩

/-- A TMUX environment in which `which chafa` finds the binary. -/
def envChafa : ImgEnv :=
  { tmux := true
    chafaWhich := some "/usr/bin/chafa"
    viuWhich := none
    execOk := true }

/-- Witness for the C8 theorem with the default command under TMUX. -/
theorem printImage_tmux_fallback_witness :
    (printImage "wezterm imgcat" envChafa "/tmp/shot.png").finalCommand = "chafa" ∧
    (printImage "wezterm imgcat" envChafa "/tmp/shot.png").fallbackNotices = 1 :=
  (printImage_tmux_fallback "wezterm imgcat" envChafa "/tmp/shot.png"
    (by decide) rfl).1 (by decide)

/-- Observable outcome of the `afterEach` teardown hook. -/
structure AfterEachResult where
  failureNotice : Bool
  screenshotAttempts : List ScreenshotOutcome
  gifRender : Option PrintImageResult

/-- `afterEachHandler` (src/index.ts lines 50-74): when the test status is
"failed" it prints the failure notice and performs one forced
`printScreenshot` on a fresh non-listening observer (defaults verbose=false,
fullPage=true); it never consults the ambient auto-screenshot flag, which is
therefore an unused input.  Afterwards the context is closed and, when a GIF
was produced from the test video, it is rendered via `printImage`. -/
def afterEachHandler (status : String) (autoScreenshotFlag : Bool)
    (pageClosed : Bool) (waitErr shotErr : Option String)
    (cmd : String) (env : ImgEnv) (gifPath : Option String) : AfterEachResult :=
  { failureNotice := status == "failed"
    screenshotAttempts :=
      if status = "failed" then
        [printScreenshot pageClosed false true waitErr shotErr]
      else []
    gifRender := gifPath.map (fun g => printImage cmd env g) }

/-- Claim C6: teardown performs exactly one forced screenshot attempt when
the test failed and none otherwise, independently of the auto-screenshot
configuration flag. -/
theorem afterEach_forced_screenshot_on_failure :
    ∀ (status : String) (flag flag2 : Bool) (pageClosed : Bool)
      (waitErr shotErr : Option String) (cmd : String) (env : ImgEnv)
      (gifPath : Option String),
      ((afterEachHandler status flag pageClosed waitErr shotErr cmd env
          gifPath).screenshotAttempts.length
        = if status = "failed" then 1 else 0) ∧
      (afterEachHandler status flag pageClosed waitErr shotErr cmd env
          gifPath).screenshotAttempts
        = (afterEachHandler status flag2 pageClosed waitErr shotErr cmd env
            gifPath).screenshotAttempts := by
  intro status flag flag2 pageClosed wE sE cmd env gif
  refine ⟨?_, rfl⟩
  unfold afterEachHandler
  by_cases h : status = "failed"
  · rw [if_pos h, if_pos h]; rfl
  · rw [if_neg h, if_neg h]; rfl

/-- The `{video}` placeholder of the conversion command template. -/
def videoPlaceholder : List Char := "{video}".toList

/-- The `{gif}` placeholder of the conversion command template. -/
def gifPlaceholder : List Char := "{gif}".toList

/-- The command string `movieToGIF` hands to the shell
(`template.replace('{video}', video).replace('{gif}', gif)`). -/
def movieToGIFCmd (template video gif : List Char) : List Char :=
  replaceFirst gifPlaceholder gif (replaceFirst videoPlaceholder video template)

/-- `movieToGIF` (src/index.ts lines 378-395): substitute the placeholders,
run the command (`execOk` models the subprocess exit) and return success. -/
def movieToGIF (execOk : Bool) (template video gif : List Char) :
    Bool × List Char :=
  (execOk, movieToGIFCmd template video gif)

/-- A list is its own prefix inside any extension. -/
theorem isPrefixOf_append_self :
    ∀ (l t : List Char), l.isPrefixOf (l ++ t) = true := by
  intro l t
  induction l with
  | nil => simp [List.isPrefixOf]
  | cons a as ih => simp [List.isPrefixOf, ih]

/-- `replaceFirst` is the identity when the pattern does not occur. -/
theorem replaceFirst_of_not_occurs :
    ∀ (pat rep s : List Char),
      containsSub pat s = false → replaceFirst pat rep s = s := by
  intro pat rep s
  induction s with
  | nil =>
    intro h
    unfold containsSub at h
    cases pat with
    | nil => simp [List.isPrefixOf] at h
    | cons a as =>
      unfold replaceFirst
      rw [if_neg (by simp)]
  | cons c rest ih =>
    intro h
    unfold containsSub at h
    rw [Bool.or_eq_false_iff] at h
    unfold replaceFirst
    rw [if_neg (by rw [h.1]; decide)]
    rw [ih h.2]

/-- `replaceFirst` replaces exactly the occurrence at the end of `x` when
no occurrence of the pattern starts earlier. -/
theorem replaceFirst_at_first_occurrence :
    ∀ (pat rep y x : List Char),
      (∀ i, i < x.length →
        pat.isPrefixOf ((x ++ (pat ++ y)).drop i) = false) →
      replaceFirst pat rep (x ++ (pat ++ y)) = x ++ (rep ++ y) := by
  intro pat rep y x
  induction x with
  | nil =>
    intro _
    simp only [List.nil_append]
    cases hp : pat with
    | nil =>
      cases y with
      | nil =>
        unfold replaceFirst
        rw [if_pos rfl]
        simp
      | cons d ds =>
        show replaceFirst [] rep (d :: ds) = rep ++ (d :: ds)
        unfold replaceFirst
        rw [if_pos (show ([] : List Char).isPrefixOf (d :: ds) = true from rfl)]
        simp
    | cons p ps =>
      show replaceFirst (p :: ps) rep (p :: (ps ++ y)) = rep ++ y
      unfold replaceFirst
      rw [if_pos (show (p :: ps).isPrefixOf (p :: (ps ++ y)) = true from
        isPrefixOf_append_self (p :: ps) y)]
      congr 1
      show (p :: (ps ++ y)).drop (ps.length + 1) = y
      rw [List.drop_succ_cons]
      exact List.drop_left ps y
  | cons c x' ih =>
    intro h
    have h0 := h 0 (by simp)
    simp only [List.cons_append, List.drop_zero] at h0
    show replaceFirst pat rep (c :: (x' ++ (pat ++ y))) = c :: (x' ++ (rep ++ y))
    unfold replaceFirst
    rw [if_neg (by rw [h0]; decide)]
    congr 1
    apply ih
    intro i hi
    have hz := h (i + 1) (by simp; omega)
    simpa [List.cons_append, List.drop_succ_cons] using hz

/-- Claim C10: both placeholder substitutions replace only the first
occurrence: in a template containing `{video}` twice (first occurrence
starting at the end of `x`), the second `{video}` survives into the shell
command verbatim; symmetrically for `{gif}`. -/
theorem movieToGIF_first_occurrence_only :
    (∀ x y z video gif : List Char,
      (∀ i, i < x.length →
        videoPlaceholder.isPrefixOf
          ((x ++ (videoPlaceholder ++ (y ++ (videoPlaceholder ++ z)))).drop i)
          = false) →
      containsSub gifPlaceholder
          (x ++ (video ++ (y ++ (videoPlaceholder ++ z)))) = false →
      movieToGIFCmd (x ++ (videoPlaceholder ++ (y ++ (videoPlaceholder ++ z))))
          video gif
        = x ++ (video ++ (y ++ (videoPlaceholder ++ z)))) ∧
    (∀ x y z video gif : List Char,
      containsSub videoPlaceholder
          (x ++ (gifPlaceholder ++ (y ++ (gifPlaceholder ++ z)))) = false →
      (∀ i, i < x.length →
        gifPlaceholder.isPrefixOf
          ((x ++ (gifPlaceholder ++ (y ++ (gifPlaceholder ++ z)))).drop i)
          = false) →
      movieToGIFCmd (x ++ (gifPlaceholder ++ (y ++ (gifPlaceholder ++ z))))
          video gif
        = x ++ (gif ++ (y ++ (gifPlaceholder ++ z)))) := by
  constructor
  · intro x y z video gif h1 h2
    unfold movieToGIFCmd
    rw [replaceFirst_at_first_occurrence videoPlaceholder video
      (y ++ (videoPlaceholder ++ z)) x h1]
    exact replaceFirst_of_not_occurs gifPlaceholder gif _ h2
  · intro x y z video gif h1 h2
    unfold movieToGIFCmd
    rw [replaceFirst_of_not_occurs videoPlaceholder video _ h1]
    exact replaceFirst_at_first_occurrence gifPlaceholder gif
      (y ++ (gifPlaceholder ++ z)) x h2

/-- Witness for the C10 theorem: in the concrete template
"ffmpeg -i {video} {video}" only the first `{video}` is substituted. -/
theorem movieToGIF_first_occurrence_only_witness :
    movieToGIFCmd
        ("ffmpeg -i ".toList ++ (videoPlaceholder ++
          (" ".toList ++ (videoPlaceholder ++ []))))
        "in.webm".toList "out.gif".toList
      = "ffmpeg -i ".toList ++ ("in.webm".toList ++
          (" ".toList ++ (videoPlaceholder ++ []))) :=
  (movieToGIF_first_occurrence_only).1 "ffmpeg -i ".toList " ".toList []
    "in.webm".toList "out.gif".toList (by decide) (by decide)

end DebugPW
